import Mathlib

/-!
Shallow embedding of the file-backup repository's watch-classify-dispatch
core (Robert-F-Mulligan/file-backup): the Watcher's `handle_file` pipeline
(src/watchers/watcher.py), the photo and generic path strategies
(src/strategies/photo_strategy.py, src/strategies/generic_strategy.py),
the two operation executors (src/strategies/base_strategy.py and
src/utils/file_handler.py), and the retry decorator
(src/utils/decorators.py).  Paths are modelled as strings with POSIX
separators, Python sets as duplicate-free lists, Python exceptions as an
explicit error type, and external collaborators (metadata decoders, the
filesystem, the operation side effect) as oracle parameters.
-/

namespace FileBackup

/-- Python exceptions that the embedded code can raise.  `nameError n`
models evaluation of a name `n` that is not bound in the defining
module's global scope. -/
inductive PyErr where
  | nameError (name : String)
  | valueError (msg : String)
  | ioError (msg : String)
  deriving DecidableEq, Repr

instance {ε α : Type} [DecidableEq ε] [DecidableEq α] :
    DecidableEq (Except ε α) := fun x y =>
  match x, y with
  | Except.ok a, Except.ok b =>
      if h : a = b then isTrue (by rw [h])
      else isFalse (by intro hc; injection hc; contradiction)
  | Except.error a, Except.error b =>
      if h : a = b then isTrue (by rw [h])
      else isFalse (by intro hc; injection hc; contradiction)
  | Except.ok _, Except.error _ => isFalse (fun hc => Except.noConfusion hc)
  | Except.error _, Except.ok _ => isFalse (fun hc => Except.noConfusion hc)

/-! ## String primitives

Executable character-list implementations of the Python string
operations the code uses (`str.endswith`, `str.startswith`, `str.split`,
`str.lower`, `int(...)` digit parsing), so that concrete instances
evaluate inside the kernel. -/

/-- `str.startswith`. -/
def strStartsWith (s pre : String) : Bool :=
  pre.data.isPrefixOf s.data

/-- `str.endswith`. -/
def strEndsWith (s suf : String) : Bool :=
  suf.data.isSuffixOf s.data

/-- Split a character list at every occurrence of `c`
(Python `str.split(sep)` semantics: empty pieces are kept). -/
def splitCharAux (c : Char) : List Char → List Char → List (List Char)
  | [], acc => [acc.reverse]
  | x :: xs, acc =>
      if x = c then acc.reverse :: splitCharAux c xs []
      else splitCharAux c xs (x :: acc)

/-- Split a string at every occurrence of the character `c`. -/
def splitStr (c : Char) (s : String) : List String :=
  (splitCharAux c s.data []).map String.mk

/-- `str.lower` (ASCII, which covers the extensions involved). -/
def lowerStr (s : String) : String :=
  String.mk (s.data.map Char.toLower)

/-- Digit-string accumulator for `int(...)`. -/
def digitsToNatAux : List Char → Nat → Option Nat
  | [], acc => some acc
  | ch :: cs, acc =>
      if ch.isDigit then digitsToNatAux cs (acc * 10 + (ch.toNat - 48))
      else none

/-! ## os.path helpers (POSIX separators) -/

/-- `os.path.basename`: the final path component, everything after the
last `/` (empty when the path ends in `/`). -/
def basename (p : String) : String :=
  (splitStr '/' p).getLastD p

/-- Index of the last `.` in a character list, if any. -/
def lastDotFrom : List Char → Nat → Option Nat → Option Nat
  | [], _, acc => acc
  | c :: cs, i, acc => lastDotFrom cs (i + 1) (if c = '.' then some i else acc)

/-- `os.path.splitext(p)[1]`: the extension of the final path component.
The split happens at the last dot of the basename, except that a basename
consisting only of leading dots before that dot has no extension
(CPython's `genericpath._splitext`). -/
def fileExtension (p : String) : String :=
  let b := (basename p).data
  match lastDotFrom b 0 none with
  | none => ""
  | some i =>
      if (b.take i).any (fun c => c ≠ '.') then String.mk (b.drop i) else ""

/-- Two-component `os.path.join` with POSIX separators: an absolute second
component discards the first. -/
def joinPath (a b : String) : String :=
  if strStartsWith b "/" then b
  else if a = "" then b
  else if strEndsWith a "/" then a ++ b
  else a ++ "/" ++ b

/-- Three-component `os.path.join`. -/
def joinPath3 (a b c : String) : String :=
  joinPath (joinPath a b) c

/-! ## Watcher state and `handle_file`
(src/watchers/watcher.py lines 45-98)

`processed_files` and `unsupported_files` are Python sets of path
strings; we model them as duplicate-free lists with `setAdd` as
`set.add`.  The external collaborators of one `handle_file` call are
packaged in `HFInput`: whether the event is a directory event, whether
`os.path.exists(destination_folder)` holds at the moment of the call
(`is_drive_connected`), the value `strategy.build_destination_path`
returns for this call (`none` models both Python `None` and an
exception swallowed inside the strategy), and whether
`strategy.execute_operation` returns normally (`execOk = false` models
an exception propagating out of it, which `handle_file` re-raises after
logging).  The observable calls a run makes are recorded as `HFAct`
values. -/

structure WatcherState where
  fileTypes : List String
  processedFiles : List String
  unsupportedFiles : List String
  deriving DecidableEq, Repr

/-- `set.add`: insert without duplication. -/
def setAdd (s : List String) (p : String) : List String :=
  if p ∈ s then s else p :: s

/-- The external inputs consumed by a single `handle_file` invocation. -/
structure HFInput where
  path : String
  isDirectory : Bool
  driveConnected : Bool
  stratResult : Option String
  execOk : Bool
  deriving DecidableEq, Repr

/-- Observable external calls made by `handle_file`. -/
inductive HFAct where
  | stratCall (p : String)
  | execCall (op p d : String)
  deriving DecidableEq, Repr

/-- The extension allow-list test of watcher.py line 62:
`any(file_path.endswith(ext) for ext in self.file_types)`. -/
def matchesFileTypes (fileTypes : List String) (p : String) : Bool :=
  fileTypes.any (fun ext => strEndsWith p ext)

/-- One run of the body of `Watcher.handle_file` (watcher.py lines 45-98),
for operation kind `op`.  Returns the updated watcher state and the list
of strategy/executor calls performed.  When the executor raises
(`execOk = false`) the exception propagates to the `retry` wrapper and
`processed_files` is not updated. -/
def handleFile (st : WatcherState) (op : String) (i : HFInput) :
    WatcherState × List HFAct :=
  if i.isDirectory then (st, [])
  else if i.path ∈ st.unsupportedFiles then (st, [])
  else if st.fileTypes ≠ [] ∧ ¬ matchesFileTypes st.fileTypes i.path then
    ({ st with unsupportedFiles := setAdd st.unsupportedFiles i.path }, [])
  else if ¬ i.driveConnected then (st, [])
  else
    match i.stratResult with
    | none =>
        ({ st with unsupportedFiles := setAdd st.unsupportedFiles i.path },
         [HFAct.stratCall i.path])
    | some d =>
        if i.path ∈ st.processedFiles then (st, [HFAct.stratCall i.path])
        else if i.execOk then
          ({ st with processedFiles := setAdd st.processedFiles i.path },
           [HFAct.stratCall i.path, HFAct.execCall op i.path d])
        else (st, [HFAct.stratCall i.path, HFAct.execCall op i.path d])

/-- A sequence of `handle_file` runs: final state and the concatenated
call log. -/
def runEvents (st : WatcherState) (op : String) :
    List HFInput → WatcherState × List HFAct
  | [] => (st, [])
  | i :: is =>
      let r := handleFile st op i
      let rest := runEvents r.1 op is
      (rest.1, r.2 ++ rest.2)

/-- A fresh watcher state as built by `Watcher.__init__`
(watcher.py lines 33-34): both sets empty. -/
def initState (fileTypes : List String) : WatcherState :=
  { fileTypes := fileTypes, processedFiles := [], unsupportedFiles := [] }

/-! ## Photo strategy
(src/strategies/photo_strategy.py)

`_parse_exif_metadata` reads EXIF tag 36867 (DateTimeOriginal), parses it
with `datetime.strptime(s, "%Y:%m:%d %H:%M:%S")` and formats the result
with `str(year)`, `strftime("%m")`, `strftime("%b")`, `strftime("%d")`.
We embed the strptime pattern: each numeric field is a non-empty digit
run (at most 4 digits for the year, at most 2 otherwise), fields are
separated by the literal colons and space, the values must lie in
strptime's ranges, and the resulting date must be constructible (day
valid for the month and year, year in 1..9999). -/

/-- `strftime("%b")` month abbreviations in the C locale. -/
def monthAbbrev : Nat → String
  | 1 => "Jan"
  | 2 => "Feb"
  | 3 => "Mar"
  | 4 => "Apr"
  | 5 => "May"
  | 6 => "Jun"
  | 7 => "Jul"
  | 8 => "Aug"
  | 9 => "Sep"
  | 10 => "Oct"
  | 11 => "Nov"
  | 12 => "Dec"
  | _ => ""

/-- Zero-padded two-digit decimal rendering (`strftime("%m")`, `"%d"`). -/
def pad2 (n : Nat) : String :=
  if n < 10 then "0" ++ toString n else toString n

/-- Gregorian leap-year rule used by `datetime`. -/
def isLeapYear (y : Nat) : Bool :=
  (y % 4 = 0 ∧ y % 100 ≠ 0) ∨ y % 400 = 0

/-- Days in a month, as validated by the `datetime` constructor. -/
def daysInMonth (y m : Nat) : Nat :=
  if m = 2 then (if isLeapYear y then 29 else 28)
  else if m = 4 ∨ m = 6 ∨ m = 9 ∨ m = 11 then 30
  else 31

/-- A numeric strptime field: non-empty, all digits, at most `maxLen`
characters. -/
def parseField (s : String) (maxLen : Nat) : Option Nat :=
  if s.data ≠ [] ∧ s.data.length ≤ maxLen then digitsToNatAux s.data 0
  else none

/-- `datetime.strptime(s, "%Y:%m:%d %H:%M:%S")`: returns the (year,
month, day) triple, or `none` when parsing or date construction raises
`ValueError` (caught by `_parse_exif_metadata`). -/
def strptimeExif (s : String) : Option (Nat × Nat × Nat) :=
  match splitStr ' ' s with
  | [datePart, timePart] =>
      (match splitStr ':' datePart, splitStr ':' timePart with
       | [ys, ms, ds], [hs, mins, ss] =>
           (match parseField ys 4, parseField ms 2, parseField ds 2,
                  parseField hs 2, parseField mins 2, parseField ss 2 with
            | some y, some m, some d, some hh, some mm, some sec =>
                if 1 ≤ y ∧ y ≤ 9999 ∧ 1 ≤ m ∧ m ≤ 12 ∧ 1 ≤ d ∧
                    d ≤ daysInMonth y m ∧ hh ≤ 23 ∧ mm ≤ 59 ∧ sec ≤ 61 then
                  some (y, m, d)
                else none
            | _, _, _, _, _, _ => none)
       | _, _ => none)
  | _ => none

/-- The (year, month_num, month_name, day) string quadruple produced by
the strategy's metadata extractors. -/
def DateParts : Type := String × String × String × String

instance : DecidableEq DateParts := by
  unfold DateParts
  infer_instance

/-- `PhotoFileHandlingStrategy._parse_exif_metadata` (photo_strategy.py
lines 90-103): look up tag 36867; when present and parseable return
`(str(year), %m, %b, %d)`; any `ValueError` is caught and `None` is
returned, and a missing or falsy tag value also yields `None`. -/
def parseExifMetadata (exifData : List (Nat × String)) : Option DateParts :=
  match exifData.lookup 36867 with
  | none => none
  | some s =>
      match strptimeExif s with
      | none => none
      | some (y, m, d) => some (toString y, pad2 m, monthAbbrev m, pad2 d)

/-- `PhotoFileHandlingStrategy._extract_exif_data` (photo_strategy.py
lines 57-67) with the PIL image decoder abstracted as `exifOf`:
`exifOf p = none` models an unreadable image or a `None` `_getexif()`
result, `some []` an empty (falsy) EXIF dict; both make the method
return `None`. -/
def extractExifData (exifOf : String → Option (List (Nat × String)))
    (p : String) : Option DateParts :=
  match exifOf p with
  | none => none
  | some e => if e ≠ [] then parseExifMetadata e else none

/-- `PhotoFileHandlingStrategy._build_folder_structure` (photo_strategy.py
lines 105-116): directory `dest/{year}/{month_num} {month_name} {year}`
and filename `{year} {month_num} {day} {original_filename}`. -/
def buildFolderStructure (destinationFolder year monthNum monthName
    dayNumber filename : String) : String :=
  let destFolder :=
    joinPath3 destinationFolder year (monthNum ++ " " ++ monthName ++ " " ++ year)
  let newFilename :=
    (year ++ " " ++ monthNum ++ " " ++ dayNumber) ++ " " ++ filename
  joinPath destFolder newFilename

/-- The keys of `PhotoFileHandlingStrategy.metadata_extractors`
(photo_strategy.py lines 20-27). -/
def photoMetadataExtensions : List String :=
  [".jpg", ".jpeg", ".png", ".mp4", ".mov", ".avi"]

/-- `PhotoFileHandlingStrategy.build_destination_path` (photo_strategy.py
lines 29-55) with the per-extension metadata extractor abstracted as
`extractor`.  Unsupported extension: return `None`.  Extractor result
falsy (`none`): the `if metadata:` guard fails and the method falls off
the end of the `try` block, implicitly returning `None` — there is no
`Unknown` sentinel branch in the code. -/
def photoBuildDestinationPath (extractor : String → Option DateParts)
    (srcPath destinationFolder : String) : Option String :=
  let ext := lowerStr (fileExtension srcPath)
  if ext ∉ photoMetadataExtensions then none
  else
    match extractor srcPath with
    | some (y, mn, mname, d) =>
        some (buildFolderStructure destinationFolder y mn mname d (basename srcPath))
    | none => none

/-! ## Generic strategy
(src/strategies/generic_strategy.py)

The module imports `time`, `logging`, `shutil`, `os`,
`FileHandlingStrategy` and `StrategyFactory`, and defines the class; it
never binds the names `build_folder_structure` or `logger`.
`build_destination_path` therefore raises `NameError` at the
`build_folder_structure(...)` call, and the `except` handler raises a
second `NameError` at `logger.error(...)`, which propagates to the
caller. -/

/-- Names bound at module scope in generic_strategy.py. -/
def genericStrategyGlobals : List String :=
  ["time", "logging", "shutil", "os", "FileHandlingStrategy",
   "StrategyFactory", "GenericFileHandlingStrategy"]

/-- `GenericFileHandlingStrategy.build_destination_path`
(generic_strategy.py lines 13-23).  The first branch (helper defined)
is dead code because `build_folder_structure` is not bound in the
module; it is given the only value the surrounding comment suggests
(join the destination with the basename). -/
def genericBuildDestinationPath (srcPath destinationFolder : String) :
    Except PyErr String :=
  let tryBody : Except PyErr String :=
    if "build_folder_structure" ∈ genericStrategyGlobals then
      Except.ok (joinPath destinationFolder (basename srcPath))
    else Except.error (PyErr.nameError "build_folder_structure")
  match tryBody with
  | Except.ok r => Except.ok r
  | Except.error e =>
      if "logger" ∈ genericStrategyGlobals then Except.error e
      else Except.error (PyErr.nameError "logger")

/-- The generic-strategy contract as the specification words it
(spec §4.2): destination is `dest_root/{original_filename}`, always
succeeding.  Stated for comparison with `genericBuildDestinationPath`. -/
def specGenericBuildDestinationPath (srcPath destinationFolder : String) :
    String :=
  joinPath destinationFolder (basename srcPath)

/-! ## Retry decorator
(src/utils/decorators.py lines 7-21)

`retry` runs the wrapped function for `attempt in range(3)`.  A normal
return is passed through immediately.  On an exception the wrapper logs
and sleeps `5 ** attempt` seconds, *including after the final failed
attempt*, and after the loop it logs and falls off the end, returning
Python `None` — the exception is never re-raised.  The wrapped
function's behaviour on attempt `k` is abstracted as `outcomes k`
(`Except.error` models a raise).  `RetryResult` records the returned
value (`none` both for exhaustion and for a function that returned
`None`), the number of invocations, and the sleep durations in order. -/

def maxRetries : Nat := 3

def backoffMultiplier : Nat := 5

structure RetryResult (α : Type) where
  result : Option α
  calls : Nat
  sleeps : List Nat
  deriving DecidableEq, Repr

/-- The retry loop from attempt number `attempt` with `remaining`
iterations left. -/
def retryAux (outcomes : Nat → Except Unit α) :
    Nat → Nat → RetryResult α
  | _, 0 => { result := none, calls := 0, sleeps := [] }
  | attempt, remaining + 1 =>
      match outcomes attempt with
      | Except.ok v => { result := some v, calls := 1, sleeps := [] }
      | Except.error _ =>
          let r := retryAux outcomes (attempt + 1) remaining
          { result := r.result, calls := r.calls + 1,
            sleeps := backoffMultiplier ^ attempt :: r.sleeps }

/-- A full run of the `retry` wrapper around `outcomes`. -/
def retryRun (outcomes : Nat → Except Unit α) : RetryResult α :=
  retryAux outcomes 0 maxRetries

/-! ## The two operation executors

The Watcher calls `self.strategy.execute_operation` (watcher.py line
88), which neither strategy class overrides, so it resolves to
`FileHandlingStrategy.execute_operation` (base_strategy.py lines
29-41).  That module imports only `abc` and `typing`: the names
`shutil` and `logger` used by `move_file`, `copy_file` and the
unsupported-operation branch are unbound there.  A separate executor,
`FileHandler.execute_operation` (file_handler.py lines 12-27), has
working imports, a `sync` entry, and raises
`ValueError("Unsupported operation: ...")` on unknown kinds — but the
Watcher never calls it. -/

/-- Names bound at module scope in base_strategy.py. -/
def baseStrategyGlobals : List String :=
  ["ABC", "abstractmethod", "Optional", "List", "FileHandlingStrategy"]

/-- A performed filesystem operation. -/
inductive FileOp where
  | copyOp (src dest : String)
  | moveOp (src dest : String)
  deriving DecidableEq, Repr

/-- `FileHandlingStrategy.copy_file` (base_strategy.py lines 21-27):
`shutil.copy2` raises `NameError` (`shutil` unbound); the handler then
evaluates `logger`, also unbound, so `NameError` for `logger`
propagates and no operation is performed.  Were the names bound, the
`try` branch would copy and the handler would swallow the exception. -/
def strategyCopyFile (src dest : String) : Except PyErr (List FileOp) :=
  if "shutil" ∈ baseStrategyGlobals then Except.ok [FileOp.copyOp src dest]
  else if "logger" ∈ baseStrategyGlobals then Except.ok []
  else Except.error (PyErr.nameError "logger")

/-- `FileHandlingStrategy.move_file` (base_strategy.py lines 13-19),
same structure as `strategyCopyFile`. -/
def strategyMoveFile (src dest : String) : Except PyErr (List FileOp) :=
  if "shutil" ∈ baseStrategyGlobals then Except.ok [FileOp.moveOp src dest]
  else if "logger" ∈ baseStrategyGlobals then Except.ok []
  else Except.error (PyErr.nameError "logger")

/-- `FileHandlingStrategy.execute_operation` (base_strategy.py lines
29-41): dictionary dispatch over `{"move", "copy"}` only; an unknown
kind (including `"sync"`) takes the `else` branch, which evaluates the
unbound name `logger` — it raises `NameError` rather than any
unsupported-operation error, and performs no operation. -/
def strategyExecuteOperation (operation src dest : String) :
    Except PyErr (List FileOp) :=
  if operation = "move" then strategyMoveFile src dest
  else if operation = "copy" then strategyCopyFile src dest
  else if "logger" ∈ baseStrategyGlobals then Except.ok []
  else Except.error (PyErr.nameError "logger")

/-! ## FileHandler and the sync operation
(src/utils/file_handler.py)

The filesystem is an association list from path to an abstract content
code; `sha256` is abstracted as a function `h` on content codes (equal
contents hash equal).  A result pairs the new filesystem with the
number of writes performed on the destination. -/

/-- Snapshot of file contents: absent paths are unmapped. -/
abbrev Fs : Type := List (String × Nat)

/-- Content of `p`, if the file exists. -/
def fsGet (fs : Fs) (p : String) : Option Nat :=
  fs.lookup p

/-- Overwrite (or create) `p` with content `c`. -/
def fsSet (fs : Fs) (p : String) (c : Nat) : Fs :=
  (p, c) :: fs.filter (fun kv => kv.1 ≠ p)

/-- Remove `p`. -/
def fsRemove (fs : Fs) (p : String) : Fs :=
  fs.filter (fun kv => kv.1 ≠ p)

/-- `FileHandler.copy_file` (file_handler.py lines 57-66):
`shutil.copy2` fails when the source is missing (the method logs and
re-raises); otherwise the destination is written once. -/
def fhCopyFile (fs : Fs) (src dest : String) : Except PyErr (Fs × Nat) :=
  match fsGet fs src with
  | none => Except.error (PyErr.ioError ("No such file: " ++ src))
  | some c => Except.ok (fsSet fs dest c, 1)

/-- `FileHandler.move_file` (file_handler.py lines 46-55). -/
def fhMoveFile (fs : Fs) (src dest : String) : Except PyErr (Fs × Nat) :=
  match fsGet fs src with
  | none => Except.error (PyErr.ioError ("No such file: " ++ src))
  | some c => Except.ok (fsSet (fsRemove fs src) dest c, 1)

/-- `FileHandler.is_file_modified` (file_handler.py lines 77-92): `true`
when the destination does not exist, otherwise compare the `sha256`
hashes of source and destination (`calculate_file_hash` raises when the
source cannot be read). -/
def fhIsFileModified (h : Nat → Nat) (fs : Fs) (src dest : String) :
    Except PyErr Bool :=
  match fsGet fs dest with
  | none => Except.ok true
  | some dc =>
      match fsGet fs src with
      | none => Except.error (PyErr.ioError ("No such file: " ++ src))
      | some sc => Except.ok (decide (h sc ≠ h dc))

/-- `FileHandler.sync_file` (file_handler.py lines 68-75): copy exactly
when `is_file_modified`, otherwise perform no write. -/
def fhSyncFile (h : Nat → Nat) (fs : Fs) (src dest : String) :
    Except PyErr (Fs × Nat) :=
  match fhIsFileModified h fs src dest with
  | Except.error e => Except.error e
  | Except.ok true => fhCopyFile fs src dest
  | Except.ok false => Except.ok (fs, 0)

/-- `FileHandler.execute_operation` (file_handler.py lines 12-27):
dispatch over `{"move", "copy", "sync"}`; unknown kinds raise
`ValueError`. -/
def fileHandlerExecuteOperation (h : Nat → Nat) (fs : Fs)
    (operation src dest : String) : Except PyErr (Fs × Nat) :=
  if operation = "move" then fhMoveFile fs src dest
  else if operation = "copy" then fhCopyFile fs src dest
  else if operation = "sync" then fhSyncFile h fs src dest
  else Except.error (PyErr.valueError ("Unsupported operation: " ++ operation))

/-! ## Watcher lifecycle
(watcher.py lines 100-137)

`start_watching` starts the watchdog observer and a daemon thread
running `scan_folder_periodically`.  `stop_watching` (lines 110-114)
calls `observer.stop()` and `observer.join()` and nothing else; after
it, the observer delivers no further callbacks.  The scan loop (lines
120-137) is `while True:` — no flag, event or channel ever makes its
condition false, so a new scan iteration begins at every wake until the
process exits (the thread is `daemon=True`). -/

structure WatcherRuntime where
  observerActive : Bool
  deriving DecidableEq, Repr

/-- `Watcher.stop_watching`: stops and joins the observer; it touches no
other runtime state. -/
def stopWatching (w : WatcherRuntime) : WatcherRuntime :=
  { w with observerActive := false }

/-- Whether the live-event source still delivers callbacks. -/
def observerDelivers (w : WatcherRuntime) : Bool :=
  w.observerActive

/-- The scan loop's continuation condition at each wake: literally the
`True` of `while True:` (watcher.py line 122), independent of any
runtime state. -/
def scanLoopRunsAgain (_w : WatcherRuntime) : Bool :=
  true

/-! ## Interleaved execution of two `handle_file` calls
(watcher.py: the `on_created` callback thread and the
`scan_folder_periodically` thread share `processed_files` and
`unsupported_files`; the Watcher creates no lock — `threading` is used
only to spawn the scan thread at line 107)

Each thread runs the `handle_file` body as a sequence of atomic steps,
one per statement that reads or writes the shared sets or performs an
external call; CPython guarantees at most this much atomicity (one set
membership test or one `set.add` at a time), not atomicity of the whole
check-then-act sequence.  A scheduler word chooses which thread steps
next. -/

/-- The shared mutable sets of one Watcher. -/
structure SharedSets where
  processedFiles : List String
  unsupportedFiles : List String
  deriving DecidableEq, Repr

/-- One thread executing `handle_file`: its input, its program counter
into the statement list, and the local `dest_path`. -/
structure ThreadState where
  input : HFInput
  pc : Nat
  destLocal : Option String
  deriving DecidableEq, Repr

/-- Program counters: 0 directory test, 1 unsupported-membership test,
2 extension filter (may add to `unsupported_files`), 3 drive check,
4 strategy call, 5 `dest_path` falsy test (may add to
`unsupported_files`), 6 processed-membership test, 7 executor call,
8 `processed_files.add`; 9 and above: returned. -/
def threadDone (t : ThreadState) : Bool :=
  9 ≤ t.pc

/-- One atomic step of a thread running the `handle_file` body for
operation kind `op` with allow-list `fileTypes`, from shared state
`sh`.  Returns the new shared state, the new thread state, and any
external calls made by this step. -/
def threadStep (fileTypes : List String) (op : String) (sh : SharedSets)
    (t : ThreadState) : SharedSets × ThreadState × List HFAct :=
  let i := t.input
  match t.pc with
  | 0 =>
      if i.isDirectory then (sh, { t with pc := 9 }, [])
      else (sh, { t with pc := 1 }, [])
  | 1 =>
      if i.path ∈ sh.unsupportedFiles then (sh, { t with pc := 9 }, [])
      else (sh, { t with pc := 2 }, [])
  | 2 =>
      if fileTypes ≠ [] ∧ ¬ matchesFileTypes fileTypes i.path then
        ({ sh with unsupportedFiles := setAdd sh.unsupportedFiles i.path },
         { t with pc := 9 }, [])
      else (sh, { t with pc := 3 }, [])
  | 3 =>
      if ¬ i.driveConnected then (sh, { t with pc := 9 }, [])
      else (sh, { t with pc := 4 }, [])
  | 4 =>
      (sh, { t with pc := 5, destLocal := i.stratResult },
       [HFAct.stratCall i.path])
  | 5 =>
      match t.destLocal with
      | none =>
          ({ sh with unsupportedFiles := setAdd sh.unsupportedFiles i.path },
           { t with pc := 9 }, [])
      | some _ => (sh, { t with pc := 6 }, [])
  | 6 =>
      if i.path ∈ sh.processedFiles then (sh, { t with pc := 9 }, [])
      else (sh, { t with pc := 7 }, [])
  | 7 =>
      (sh, { t with pc := if i.execOk then 8 else 9 },
       [HFAct.execCall op i.path (t.destLocal.getD "")])
  | 8 =>
      ({ sh with processedFiles := setAdd sh.processedFiles i.path },
       { t with pc := 9 }, [])
  | _ => (sh, t, [])

/-- Run a schedule over two threads: `true` steps the first thread,
`false` the second.  Returns the final shared state, both final thread
states, and the concatenated log of external calls. -/
def runSchedule (fileTypes : List String) (op : String) :
    List Bool → SharedSets → ThreadState → ThreadState →
    SharedSets × ThreadState × ThreadState × List HFAct
  | [], sh, t1, t2 => (sh, t1, t2, [])
  | b :: bs, sh, t1, t2 =>
      if b then
        let s := threadStep fileTypes op sh t1
        let rest := runSchedule fileTypes op bs s.1 s.2.1 t2
        (rest.1, rest.2.1, rest.2.2.1, s.2.2 ++ rest.2.2.2)
      else
        let s := threadStep fileTypes op sh t2
        let rest := runSchedule fileTypes op bs s.1 t1 s.2.1
        (rest.1, rest.2.1, rest.2.2.1, s.2.2 ++ rest.2.2.2)

/-- A fresh thread about to run `handle_file` on input `i`. -/
def newThread (i : HFInput) : ThreadState :=
  { input := i, pc := 0, destLocal := none }

/-- Number of Operation Executor invocations for path `p` in a call
log. -/
def countExecCalls (p : String) (acts : List HFAct) : Nat :=
  acts.countP (fun a =>
    match a with
    | HFAct.execCall _ q _ => q = p
    | _ => false)

/-- Number of `build_destination_path` invocations for path `p` in a
call log. -/
def countStratCalls (p : String) (acts : List HFAct) : Nat :=
  acts.countP (fun a =>
    match a with
    | HFAct.stratCall q => q = p
    | _ => false)

/-- The inductive invariant tying `processed_files` to a fixed
per-path strategy result `sf`: every processed path has a non-`none`
strategy result, passes the extension allow-list, and is not in
`unsupported_files`. -/
def ProcessedInv (sf : String → Option String) (st : WatcherState) : Prop :=
  ∀ q ∈ st.processedFiles,
    sf q ≠ none ∧
    (st.fileTypes = [] ∨ matchesFileTypes st.fileTypes q) ∧
    q ∉ st.unsupportedFiles

/-! ## Helper lemmas -/

theorem mem_setAdd_self (s : List String) (p : String) : p ∈ setAdd s p := by
  unfold setAdd
  split
  · assumption
  · exact List.mem_cons_self p s

theorem subset_setAdd (s : List String) (p : String) : s ⊆ setAdd s p := by
  unfold setAdd
  split
  · exact fun q hq => hq
  · exact fun q hq => List.mem_cons_of_mem p hq

theorem mem_setAdd (s : List String) (p q : String) :
    q ∈ setAdd s p ↔ q = p ∨ q ∈ s := by
  unfold setAdd
  split
  · constructor
    · exact fun hq => Or.inr hq
    · rintro (rfl | hq)
      · assumption
      · exact hq
  · exact List.mem_cons

theorem passFilter_not (st : WatcherState) (p : String)
    (hfil : st.fileTypes = [] ∨ matchesFileTypes st.fileTypes p) :
    ¬(st.fileTypes ≠ [] ∧ ¬ matchesFileTypes st.fileTypes p = true) := by
  rcases hfil with h | h
  · exact fun hc => hc.1 h
  · exact fun hc => hc.2 h

/-! Branch-characterisation lemmas for `handleFile`, one per return point
of `Watcher.handle_file`. -/

theorem hf_dir (st : WatcherState) (op : String) (i : HFInput)
    (hdir : i.isDirectory = true) : handleFile st op i = (st, []) := by
  simp [handleFile, hdir]

theorem hf_unsup_mem (st : WatcherState) (op : String) (i : HFInput)
    (hdir : i.isDirectory = false) (hmem : i.path ∈ st.unsupportedFiles) :
    handleFile st op i = (st, []) := by
  simp [handleFile, hdir, hmem]

theorem hf_filter_fail (st : WatcherState) (op : String) (i : HFInput)
    (hdir : i.isDirectory = false) (hmem : i.path ∉ st.unsupportedFiles)
    (hft : st.fileTypes ≠ []) (hm : matchesFileTypes st.fileTypes i.path = false) :
    handleFile st op i =
      ({ st with unsupportedFiles := setAdd st.unsupportedFiles i.path }, []) := by
  simp [handleFile, hdir, hmem, hft, hm]

theorem hf_drive (st : WatcherState) (op : String) (i : HFInput)
    (hdir : i.isDirectory = false) (hmem : i.path ∉ st.unsupportedFiles)
    (hfil : st.fileTypes = [] ∨ matchesFileTypes st.fileTypes i.path)
    (hdrive : i.driveConnected = false) :
    handleFile st op i = (st, []) := by
  simp [handleFile, hdir, hmem, hdrive]
  rcases hfil with h | h <;> simp [h]

theorem hf_strat_none (st : WatcherState) (op : String) (i : HFInput)
    (hdir : i.isDirectory = false) (hmem : i.path ∉ st.unsupportedFiles)
    (hfil : st.fileTypes = [] ∨ matchesFileTypes st.fileTypes i.path)
    (hdrive : i.driveConnected = true) (hstrat : i.stratResult = none) :
    handleFile st op i =
      ({ st with unsupportedFiles := setAdd st.unsupportedFiles i.path },
       [HFAct.stratCall i.path]) := by
  simp [handleFile, hdir, hmem, hdrive, hstrat]
  rcases hfil with h | h <;> simp [h]

theorem hf_processed_mem (st : WatcherState) (op : String) (i : HFInput)
    (d : String)
    (hdir : i.isDirectory = false) (hmem : i.path ∉ st.unsupportedFiles)
    (hfil : st.fileTypes = [] ∨ matchesFileTypes st.fileTypes i.path)
    (hdrive : i.driveConnected = true) (hstrat : i.stratResult = some d)
    (hproc : i.path ∈ st.processedFiles) :
    handleFile st op i = (st, [HFAct.stratCall i.path]) := by
  simp [handleFile, hdir, hmem, hdrive, hstrat, hproc]
  rcases hfil with h | h <;> simp [h]

theorem hf_exec_ok (st : WatcherState) (op : String) (i : HFInput) (d : String)
    (hdir : i.isDirectory = false) (hmem : i.path ∉ st.unsupportedFiles)
    (hfil : st.fileTypes = [] ∨ matchesFileTypes st.fileTypes i.path)
    (hdrive : i.driveConnected = true) (hstrat : i.stratResult = some d)
    (hproc : i.path ∉ st.processedFiles) (hexec : i.execOk = true) :
    handleFile st op i =
      ({ st with processedFiles := setAdd st.processedFiles i.path },
       [HFAct.stratCall i.path, HFAct.execCall op i.path d]) := by
  simp [handleFile, hdir, hmem, hdrive, hstrat, hproc, hexec]
  rcases hfil with h | h <;> simp [h]

theorem hf_exec_fail (st : WatcherState) (op : String) (i : HFInput) (d : String)
    (hdir : i.isDirectory = false) (hmem : i.path ∉ st.unsupportedFiles)
    (hfil : st.fileTypes = [] ∨ matchesFileTypes st.fileTypes i.path)
    (hdrive : i.driveConnected = true) (hstrat : i.stratResult = some d)
    (hproc : i.path ∉ st.processedFiles) (hexec : i.execOk = false) :
    handleFile st op i =
      (st, [HFAct.stratCall i.path, HFAct.execCall op i.path d]) := by
  simp [handleFile, hdir, hmem, hdrive, hstrat, hproc, hexec]
  rcases hfil with h | h <;> simp [h]

/-! Per-call and per-run facts about `handleFile` and `runEvents`. -/

theorem handleFile_mono (st : WatcherState) (op : String) (i : HFInput) :
    st.processedFiles ⊆ (handleFile st op i).1.processedFiles ∧
    st.unsupportedFiles ⊆ (handleFile st op i).1.unsupportedFiles := by
  unfold handleFile
  split
  · exact ⟨fun q hq => hq, fun q hq => hq⟩
  split
  · exact ⟨fun q hq => hq, fun q hq => hq⟩
  split
  · exact ⟨fun q hq => hq, subset_setAdd _ _⟩
  split
  · exact ⟨fun q hq => hq, fun q hq => hq⟩
  split
  · exact ⟨fun q hq => hq, subset_setAdd _ _⟩
  split
  · exact ⟨fun q hq => hq, fun q hq => hq⟩
  split
  · exact ⟨subset_setAdd _ _, fun q hq => hq⟩
  · exact ⟨fun q hq => hq, fun q hq => hq⟩

theorem handleFile_processed_no_exec (st : WatcherState) (op : String)
    (i : HFInput) (p : String) (hp : p ∈ st.processedFiles) :
    countExecCalls p (handleFile st op i).2 = 0 := by
  unfold handleFile
  split
  · rfl
  split
  · rfl
  split
  · rfl
  split
  · rfl
  split
  · simp [countExecCalls]
  split
  · simp [countExecCalls]
  rename_i hmem
  have hne : i.path ≠ p := fun he => hmem (he ▸ hp)
  split
  · simp [countExecCalls, hne]
  · simp [countExecCalls, hne]

theorem handleFile_unsupported_no_strat (st : WatcherState) (op : String)
    (i : HFInput) (p : String) (hp : p ∈ st.unsupportedFiles) :
    countStratCalls p (handleFile st op i).2 = 0 := by
  unfold handleFile
  split
  · rfl
  split
  · rfl
  rename_i hmem
  have hne : i.path ≠ p := fun he => hmem (he ▸ hp)
  split
  · rfl
  split
  · rfl
  split
  · simp [countStratCalls, hne]
  split
  · simp [countStratCalls, hne]
  split
  · simp [countStratCalls, hne]
  · simp [countStratCalls, hne]

theorem countExecCalls_append (p : String) (a b : List HFAct) :
    countExecCalls p (a ++ b) = countExecCalls p a + countExecCalls p b :=
  List.countP_append _ _ _

theorem countStratCalls_append (p : String) (a b : List HFAct) :
    countStratCalls p (a ++ b) = countStratCalls p a + countStratCalls p b :=
  List.countP_append _ _ _

theorem runEvents_mono (st : WatcherState) (op : String) (evs : List HFInput) :
    st.processedFiles ⊆ (runEvents st op evs).1.processedFiles ∧
    st.unsupportedFiles ⊆ (runEvents st op evs).1.unsupportedFiles := by
  induction evs generalizing st with
  | nil => exact ⟨fun q hq => hq, fun q hq => hq⟩
  | cons i is ih =>
      have h1 := handleFile_mono st op i
      have h2 := ih (handleFile st op i).1
      exact ⟨fun q hq => h2.1 (h1.1 hq), fun q hq => h2.2 (h1.2 hq)⟩

theorem runEvents_processed_no_exec (st : WatcherState) (op : String)
    (evs : List HFInput) (p : String) (hp : p ∈ st.processedFiles) :
    countExecCalls p (runEvents st op evs).2 = 0 := by
  induction evs generalizing st with
  | nil => rfl
  | cons i is ih =>
      show countExecCalls p ((handleFile st op i).2 ++
        (runEvents (handleFile st op i).1 op is).2) = 0
      rw [countExecCalls_append]
      rw [handleFile_processed_no_exec st op i p hp]
      rw [ih (handleFile st op i).1 ((handleFile_mono st op i).1 hp)]

theorem runEvents_unsupported_no_strat (st : WatcherState) (op : String)
    (evs : List HFInput) (p : String) (hp : p ∈ st.unsupportedFiles) :
    countStratCalls p (runEvents st op evs).2 = 0 := by
  induction evs generalizing st with
  | nil => rfl
  | cons i is ih =>
      show countStratCalls p ((handleFile st op i).2 ++
        (runEvents (handleFile st op i).1 op is).2) = 0
      rw [countStratCalls_append]
      rw [handleFile_unsupported_no_strat st op i p hp]
      rw [ih (handleFile st op i).1 ((handleFile_mono st op i).2 hp)]

theorem processedInv_step (sf : String → Option String) (st : WatcherState)
    (op : String) (i : HFInput) (h : ProcessedInv sf st)
    (hs : i.stratResult = sf i.path) :
    ProcessedInv sf (handleFile st op i).1 := by
  cases hdir : i.isDirectory with
  | true =>
      rw [hf_dir st op i hdir]
      exact h
  | false =>
  by_cases hmem : i.path ∈ st.unsupportedFiles
  · rw [hf_unsup_mem st op i hdir hmem]
    exact h
  by_cases hpass : st.fileTypes = [] ∨ matchesFileTypes st.fileTypes i.path
  · cases hdrive : i.driveConnected with
    | false =>
        rw [hf_drive st op i hdir hmem hpass hdrive]
        exact h
    | true =>
    cases hstrat : i.stratResult with
    | none =>
        rw [hf_strat_none st op i hdir hmem hpass hdrive hstrat]
        intro q hq
        obtain ⟨h1, h2, h3⟩ := h q hq
        refine ⟨h1, h2, ?_⟩
        intro hin
        rcases (mem_setAdd _ _ _).1 hin with rfl | hold
        · exact h1 (by rw [← hs, hstrat])
        · exact h3 hold
    | some d =>
    by_cases hproc : i.path ∈ st.processedFiles
    · rw [hf_processed_mem st op i d hdir hmem hpass hdrive hstrat hproc]
      exact h
    cases hexec : i.execOk with
    | false =>
        rw [hf_exec_fail st op i d hdir hmem hpass hdrive hstrat hproc hexec]
        exact h
    | true =>
        rw [hf_exec_ok st op i d hdir hmem hpass hdrive hstrat hproc hexec]
        intro q hq
        rcases (mem_setAdd _ _ _).1 hq with rfl | hold
        · refine ⟨?_, hpass, hmem⟩
          rw [← hs, hstrat]
          exact fun hc => Option.noConfusion hc
        · exact h q hold
  · push_neg at hpass
    have hm2 : matchesFileTypes st.fileTypes i.path = false := by
      simpa using hpass.2
    rw [hf_filter_fail st op i hdir hmem hpass.1 hm2]
    intro q hq
    obtain ⟨h1, h2, h3⟩ := h q hq
    refine ⟨h1, h2, ?_⟩
    intro hin
    rcases (mem_setAdd _ _ _).1 hin with rfl | hold
    · rcases h2 with hft | hm
      · exact hpass.1 hft
      · rw [hm2] at hm
        cases hm
    · exact h3 hold

theorem runEvents_inv (sf : String → Option String) (st : WatcherState)
    (op : String) (evs : List HFInput) (h : ProcessedInv sf st)
    (hall : ∀ i ∈ evs, i.stratResult = sf i.path) :
    ProcessedInv sf (runEvents st op evs).1 := by
  induction evs generalizing st with
  | nil => exact h
  | cons i is ih =>
      exact ih (handleFile st op i).1
        (processedInv_step sf st op i h (hall i (List.mem_cons_self i is)))
        (fun j hj => hall j (List.mem_cons_of_mem i hj))

/-- Helper for the photo strategy: when the extractor yields no usable
capture date, `build_destination_path` returns `None` (there is no
`Unknown`-sentinel branch in photo_strategy.py). -/
theorem photoBuild_none_of_extractor_none (extractor : String → Option DateParts)
    (src destRoot : String) (hnone : extractor src = none) :
    photoBuildDestinationPath extractor src destRoot = none := by
  simp only [photoBuildDestinationPath, hnone]
  split
  · rfl
  · rfl

/-! Filesystem lookup lemmas for the sync model. -/

theorem lookup_filter_ne (q p : String) (fs : Fs) (hne : q ≠ p) :
    List.lookup q (fs.filter (fun kv => kv.1 ≠ p)) = List.lookup q fs := by
  simp only [ne_eq, decide_not]
  induction fs with
  | nil => rfl
  | cons kv t ih =>
      simp only [List.filter]
      by_cases hk : kv.1 = p
      · have h1 : (!decide (kv.1 = p)) = false := by simp [hk]
        rw [h1]
        have hqk : (q == kv.1) = false := by
          rw [beq_eq_false_iff_ne, hk]
          exact hne
        simp [List.lookup, hqk, ih]
      · have h1 : (!decide (kv.1 = p)) = true := by simp [hk]
        rw [h1]
        cases hq : (q == kv.1) with
        | true => simp [List.lookup, hq]
        | false => simp [List.lookup, hq, ih]

theorem fsGet_fsSet_self (fs : Fs) (p : String) (c : Nat) :
    fsGet (fsSet fs p c) p = some c := by
  simp [fsGet, fsSet, List.lookup]

theorem fsGet_fsSet_ne (fs : Fs) (p q : String) (c : Nat) (hne : q ≠ p) :
    fsGet (fsSet fs p c) q = fsGet fs q := by
  have hqp : (q == p) = false := by
    rw [beq_eq_false_iff_ne]
    exact hne
  have h2 := lookup_filter_ne q p fs hne
  simp only [fsGet, fsSet, List.lookup, hqp]
  simpa using h2

/-! ## Claims -/

/-- Claim C1 counterexample: the processed and unsupported sets are NOT
always disjoint.  `handle_file` re-invokes `build_destination_path` on an
already-processed path (the `processed_files` check at watcher.py line 83
comes after the strategy call at line 75), and the `unsupported_files.add`
at line 80 does not consult `processed_files`.  So when the strategy
returns a path on the first call (file processed) and `None` on a second
call for the same path (e.g. the source was moved away or became
unreadable), the path ends up in both sets. -/
theorem watcher_sets_disjointness_counterexample :
    "a.jpg" ∈ (handleFile
        (handleFile (initState []) "copy"
          { path := "a.jpg", isDirectory := false, driveConnected := true,
            stratResult := some "/d/x", execOk := true }).1 "copy"
        { path := "a.jpg", isDirectory := false, driveConnected := true,
          stratResult := none, execOk := true }).1.processedFiles ∧
    "a.jpg" ∈ (handleFile
        (handleFile (initState []) "copy"
          { path := "a.jpg", isDirectory := false, driveConnected := true,
            stratResult := some "/d/x", execOk := true }).1 "copy"
        { path := "a.jpg", isDirectory := false, driveConnected := true,
          stratResult := none, execOk := true }).1.unsupportedFiles := by
  decide

/-- Claim C1 (amended): over every sequence of `handle_file` calls from a
fresh Watcher state — with no assumption on how the strategy responds —
(1) both sets grow monotonically, no element is ever removed; (2) once a
path is in `processed_files`, no later call invokes the Operation
Executor on it; (3) once a path is in `unsupported_files`, no later call
invokes `PathStrategy.build_destination_path` on it; and (4) the two
sets stay disjoint after every call PROVIDED the strategy's result for
each path is fixed across the run (`stratResult = sf path` for a fixed
function `sf`) — this last proviso is genuinely needed: without it
disjointness can fail, see the counterexample. -/
theorem watcher_sets_invariants (ft : List String) (op : String)
    (evs1 evs2 : List HFInput) (p : String) :
    ((runEvents (initState ft) op evs1).1.processedFiles ⊆
       (runEvents (runEvents (initState ft) op evs1).1 op evs2).1.processedFiles ∧
     (runEvents (initState ft) op evs1).1.unsupportedFiles ⊆
       (runEvents (runEvents (initState ft) op evs1).1 op evs2).1.unsupportedFiles) ∧
    (p ∈ (runEvents (initState ft) op evs1).1.processedFiles →
       countExecCalls p
         (runEvents (runEvents (initState ft) op evs1).1 op evs2).2 = 0) ∧
    (p ∈ (runEvents (initState ft) op evs1).1.unsupportedFiles →
       countStratCalls p
         (runEvents (runEvents (initState ft) op evs1).1 op evs2).2 = 0) ∧
    (∀ sf : String → Option String,
       (∀ i ∈ evs1, i.stratResult = sf i.path) →
       ∀ q, q ∈ (runEvents (initState ft) op evs1).1.processedFiles →
         q ∉ (runEvents (initState ft) op evs1).1.unsupportedFiles) := by
  refine ⟨runEvents_mono _ op evs2, ?_, ?_, ?_⟩
  · intro hp
    exact runEvents_processed_no_exec _ op evs2 p hp
  · intro hp
    exact runEvents_unsupported_no_strat _ op evs2 p hp
  · intro sf hsf q hq
    have h0 : ProcessedInv sf (initState ft) := by
      intro r hr
      exact absurd hr (List.not_mem_nil r)
    exact ((runEvents_inv sf (initState ft) op evs1 h0 hsf) q hq).2.2

/-- Claim C1 witness: a path processed by one call is in
`processed_files`, a repeat of the same event triggers zero further
executor invocations, and under the fixed strategy function matching
that run the path is not in `unsupported_files`. -/
theorem watcher_sets_invariants_witness :
    "a.jpg" ∈ (runEvents (initState []) "copy"
        [{ path := "a.jpg", isDirectory := false, driveConnected := true,
           stratResult := some "/d/x", execOk := true }]).1.processedFiles ∧
    countExecCalls "a.jpg"
      (runEvents (runEvents (initState []) "copy"
        [{ path := "a.jpg", isDirectory := false, driveConnected := true,
           stratResult := some "/d/x", execOk := true }]).1 "copy"
        [{ path := "a.jpg", isDirectory := false, driveConnected := true,
           stratResult := some "/d/x", execOk := true }]).2 = 0 ∧
    "a.jpg" ∉ (runEvents (initState []) "copy"
        [{ path := "a.jpg", isDirectory := false, driveConnected := true,
           stratResult := some "/d/x", execOk := true }]).1.unsupportedFiles :=
  ⟨by decide,
   (watcher_sets_invariants [] "copy"
      [{ path := "a.jpg", isDirectory := false, driveConnected := true,
         stratResult := some "/d/x", execOk := true }]
      [{ path := "a.jpg", isDirectory := false, driveConnected := true,
         stratResult := some "/d/x", execOk := true }]
      "a.jpg").2.1 (by decide),
   (watcher_sets_invariants [] "copy"
      [{ path := "a.jpg", isDirectory := false, driveConnected := true,
         stratResult := some "/d/x", execOk := true }]
      [] "a.jpg").2.2.2 (fun _ => some "/d/x") (by decide) "a.jpg"
      (by decide)⟩

/-- Claim C2 counterexample: for a file with supported extension `.jpg`
whose metadata extraction yields no usable capture date, the photo
strategy returns `None` — not a path under `dest_root/Unknown/...` — and
the subsequent `handle_file` call inserts the path into
`unsupported_files`.  There is no `Unknown` sentinel anywhere in
photo_strategy.py: the `if metadata:` guard simply falls through and the
method implicitly returns `None`. -/
theorem photo_missing_date_counterexample :
    photoBuildDestinationPath (fun _ => none) "IMG_01.jpg" "/dest" = none ∧
    "IMG_01.jpg" ∈ (handleFile (initState []) "copy"
        { path := "IMG_01.jpg", isDirectory := false, driveConnected := true,
          stratResult := none, execOk := true }).1.unsupportedFiles := by
  refine ⟨by decide, by decide⟩

/-- Claim C2 (amended): for every file with an extension in the photo
strategy's supported set whose metadata extraction yields no usable
capture date, `build_destination_path` returns `None`, and the
`handle_file` call that receives that `None` inserts the path into the
unsupported set (no `Unknown`-folder sentinel path is ever produced). -/
theorem photo_missing_date_marks_unsupported
    (extractor : String → Option DateParts) (src destRoot op : String)
    (st : WatcherState) (i : HFInput)
    (hext : lowerStr (fileExtension src) ∈ photoMetadataExtensions)
    (hnone : extractor src = none)
    (hpath : i.path = src) (hdir : i.isDirectory = false)
    (hdrive : i.driveConnected = true)
    (hstrat : i.stratResult = photoBuildDestinationPath extractor src destRoot)
    (hfil : st.fileTypes = [] ∨ matchesFileTypes st.fileTypes src) :
    photoBuildDestinationPath extractor src destRoot = none ∧
    src ∈ (handleFile st op i).1.unsupportedFiles := by
  have hbuild := photoBuild_none_of_extractor_none extractor src destRoot hnone
  refine ⟨hbuild, ?_⟩
  by_cases hmem : i.path ∈ st.unsupportedFiles
  · rw [hf_unsup_mem st op i hdir hmem]
    rw [← hpath]
    exact hmem
  · rw [hf_strat_none st op i hdir hmem (by rw [hpath]; exact hfil) hdrive
      (by rw [hstrat, hbuild])]
    rw [← hpath]
    exact mem_setAdd_self _ _

/-- Claim C2 witness: the amended behaviour at a concrete `.jpg` file
with no extractable date. -/
theorem photo_missing_date_marks_unsupported_witness :
    photoBuildDestinationPath (fun _ => none) "/w/IMG_01.jpg" "/dest" = none ∧
    "/w/IMG_01.jpg" ∈ (handleFile (initState []) "copy"
        { path := "/w/IMG_01.jpg", isDirectory := false,
          driveConnected := true, stratResult := none,
          execOk := true }).1.unsupportedFiles :=
  photo_missing_date_marks_unsupported (fun _ => none) "/w/IMG_01.jpg" "/dest"
    "copy" (initState [])
    { path := "/w/IMG_01.jpg", isDirectory := false, driveConnected := true,
      stratResult := none, execOk := true }
    (by decide) rfl rfl rfl rfl (by decide) (Or.inl rfl)

/-- Claim C3: the specification says
`GenericFileHandlingStrategy.build_destination_path` always succeeds and
returns `dest_root` joined with the original base filename — the code
instead raises `NameError` on every input: the `try` body calls the
unbound name `build_folder_structure` and the `except` handler evaluates
the unbound name `logger`.  Evaluated at the specification's own
example: the code raises `NameError` for `logger` where the spec
requires the value `/dest/notes.txt`. -/
theorem generic_build_destination_path_raises_name_error :
    genericBuildDestinationPath "notes.txt" "/dest" =
      Except.error (PyErr.nameError "logger") ∧
    specGenericBuildDestinationPath "notes.txt" "/dest" = "/dest/notes.txt" ∧
    genericBuildDestinationPath "notes.txt" "/dest" ≠
      Except.ok (specGenericBuildDestinationPath "notes.txt" "/dest") := by
  refine ⟨by decide, by decide, by decide⟩

/-- Claim C4 counterexample: wrapping an operation that fails on every
attempt, the `retry` wrapper makes 3 calls but performs THREE sleeps
(1s, 5s and 25s) — the 25-second sleep follows the final failed attempt,
with no further attempt after it, so the sleeps are not "only between
consecutive attempts" — and then returns Python `None` instead of
reporting the failure upward: the caller sees a normal return, not an
error. -/
theorem retry_exhaustion_counterexample :
    retryRun (fun _ => (Except.error () : Except Unit Nat)) =
      { result := none, calls := 3, sleeps := [1, 5, 25] } := by
  decide

/-- Claim C4 (amended): the wrapper invokes a failing operation exactly
3 times, sleeping `5 ^ attempt` seconds after EVERY failed attempt
including the last (sleeps `[1, 5, 25]`), and on exhaustion swallows the
exception and returns `None` — the failure is logged, not reported
upward.  For an operation whose first success is attempt `k` (0-based,
`k < 3`), the wrapper returns that attempt's result after `k + 1` calls
with sleeps only after the failed attempts. -/
theorem retry_wrapper_behaviour {α : Type} (outcomes : Nat → Except Unit α) :
    ((∀ k, k < maxRetries → outcomes k = Except.error ()) →
       retryRun outcomes =
         { result := none, calls := 3, sleeps := [1, 5, 25] }) ∧
    (∀ k v, k < maxRetries → (∀ j, j < k → outcomes j = Except.error ()) →
       outcomes k = Except.ok v →
       retryRun outcomes =
         { result := some v, calls := k + 1,
           sleeps := (List.range k).map (fun j => backoffMultiplier ^ j) }) := by
  constructor
  · intro h
    have h0 := h 0 (by norm_num [maxRetries])
    have h1 := h 1 (by norm_num [maxRetries])
    have h2 := h 2 (by norm_num [maxRetries])
    simp [retryRun, maxRetries, retryAux, h0, h1, h2, backoffMultiplier]
  · intro k v hk hfail hok
    have hk3 : k < 3 := hk
    interval_cases k
    · simp [retryRun, maxRetries, retryAux, hok]
    · have h0 := hfail 0 (by norm_num)
      simp [retryRun, maxRetries, retryAux, h0, hok, backoffMultiplier,
        List.range, List.range.loop]
    · have h0 := hfail 0 (by norm_num)
      have h1 := hfail 1 (by norm_num)
      simp [retryRun, maxRetries, retryAux, h0, h1, hok, backoffMultiplier,
        List.range, List.range.loop]

/-- Claim C4 witness: the amended behaviour at a concrete always-failing
operation and at one that succeeds on its second attempt. -/
theorem retry_wrapper_behaviour_witness :
    retryRun (fun _ => (Except.error () : Except Unit Nat)) =
      { result := none, calls := 3, sleeps := [1, 5, 25] } ∧
    retryRun (fun k =>
        if k = 1 then Except.ok 7 else (Except.error () : Except Unit Nat)) =
      { result := some 7, calls := 2, sleeps := [1] } :=
  ⟨(retry_wrapper_behaviour (fun _ => (Except.error () : Except Unit Nat))).1
      (fun k _ => rfl),
   by
    have h := (retry_wrapper_behaviour (fun k =>
        if k = 1 then Except.ok 7 else (Except.error () : Except Unit Nat))).2
        1 7 (by norm_num [maxRetries])
        (by
          intro j hj
          interval_cases j
          rfl)
        (by rfl)
    simpa using h⟩

/-- Claim C5: the specification's executor contract (supporting
`{copy, move, sync}` and failing with an unsupported-operation error
otherwise) is implemented by `FileHandler.execute_operation` — but the
Watcher invokes `strategy.execute_operation`, which resolves to
`FileHandlingStrategy.execute_operation`.  That dispatch has no `sync`
entry, and every one of its paths evaluates a name (`shutil`, `logger`)
unbound in base_strategy.py, so it raises `NameError` — never an
unsupported-operation error — and performs no file operation for any
kind, including `sync` and `copy`. -/
theorem watcher_executor_does_not_support_sync :
    strategyExecuteOperation "sync" "/w/a.jpg" "/d/a.jpg" =
      Except.error (PyErr.nameError "logger") ∧
    strategyExecuteOperation "copy" "/w/a.jpg" "/d/a.jpg" =
      Except.error (PyErr.nameError "logger") ∧
    fileHandlerExecuteOperation id [("/w/a.jpg", 3)] "sync" "/w/a.jpg" "/d/a.jpg" =
      Except.ok ([("/d/a.jpg", 3), ("/w/a.jpg", 3)], 1) ∧
    fileHandlerExecuteOperation id [("/w/a.jpg", 3)] "rename" "/w/a.jpg" "/d/a.jpg" =
      Except.error (PyErr.valueError "Unsupported operation: rename") := by
  refine ⟨by decide, by decide, by decide, by decide⟩

/-- Claim C6: `FileHandler.sync_file` copies exactly when the destination
is absent or the hashes of source and destination contents differ, and
performs no write (and leaves the filesystem unchanged) otherwise; and
starting from an absent destination, syncing the same unmodified file
twice performs exactly one write — the second sync sees equal hashes and
skips. -/
theorem sync_file_copies_iff_changed (h : Nat → Nat) (fs : Fs)
    (src dest : String) (c : Nat) (hsrc : fsGet fs src = some c) :
    (∀ fs2 n, fhSyncFile h fs src dest = Except.ok (fs2, n) →
       ((n = 1 ↔ fsGet fs dest = none ∨
          ∃ dc, fsGet fs dest = some dc ∧ h c ≠ h dc) ∧
        (n = 0 → fs2 = fs))) ∧
    (fsGet fs dest = none →
       ∃ fs2, fhSyncFile h fs src dest = Except.ok (fs2, 1) ∧
         fhSyncFile h fs2 src dest = Except.ok (fs2, 0)) := by
  constructor
  · intro fs2 n hok
    cases hdest : fsGet fs dest with
    | none =>
        have hrun : fhSyncFile h fs src dest =
            Except.ok (fsSet fs dest c, 1) := by
          unfold fhSyncFile fhIsFileModified fhCopyFile
          rw [hdest, hsrc]
        rw [hrun] at hok
        injection hok with hok2
        injection hok2 with hfs hn
        constructor
        · rw [← hn]
          exact iff_of_true rfl (Or.inl rfl)
        · intro h0
          rw [← hn] at h0
          cases h0
    | some dc =>
        by_cases hhash : h c = h dc
        · have hrun : fhSyncFile h fs src dest = Except.ok (fs, 0) := by
            unfold fhSyncFile fhIsFileModified
            rw [hdest, hsrc]
            simp [hhash]
          rw [hrun] at hok
          injection hok with hok2
          injection hok2 with hfs hn
          constructor
          · rw [← hn]
            constructor
            · intro h01
              cases h01
            · rintro (hd | ⟨dc2, hd2, hne2⟩)
              · cases hd
              · injection hd2 with hdc
                exact absurd hhash (hdc ▸ hne2)
          · intro _
            rw [← hfs]
        · have hrun : fhSyncFile h fs src dest =
              Except.ok (fsSet fs dest c, 1) := by
            unfold fhSyncFile fhIsFileModified fhCopyFile
            rw [hdest, hsrc]
            simp [hhash]
          rw [hrun] at hok
          injection hok with hok2
          injection hok2 with hfs hn
          constructor
          · rw [← hn]
            exact iff_of_true rfl (Or.inr ⟨dc, rfl, hhash⟩)
          · intro h0
            rw [← hn] at h0
            cases h0
  · intro hdest
    have hne : src ≠ dest := by
      intro he
      rw [he, hdest] at hsrc
      cases hsrc
    refine ⟨fsSet fs dest c, ?_, ?_⟩
    · unfold fhSyncFile fhIsFileModified fhCopyFile
      rw [hdest, hsrc]
    · have hd2 : fsGet (fsSet fs dest c) dest = some c :=
        fsGet_fsSet_self fs dest c
      have hs2 : fsGet (fsSet fs dest c) src = some c := by
        rw [fsGet_fsSet_ne fs dest src c hne]
        exact hsrc
      unfold fhSyncFile fhIsFileModified
      rw [hd2, hs2]
      simp

/-- Claim C6 witness: syncing a concrete file to an absent destination
writes once; the immediate second sync writes zero times. -/
theorem sync_file_copies_iff_changed_witness :
    ∃ fs2, fhSyncFile id [("/w/a", 5)] "/w/a" "/d/a" = Except.ok (fs2, 1) ∧
      fhSyncFile id fs2 "/w/a" "/d/a" = Except.ok (fs2, 0) :=
  (sync_file_copies_iff_changed id [("/w/a", 5)] "/w/a" "/d/a" 5 rfl).2 rfl

/-- Claim C7 counterexample: with allow-list `[".jpg"]` and the
destination drive disconnected, a `handle_file` call on `/w/notes.txt`
nevertheless mutates `unsupported_files` — the extension filter (and its
`unsupported_files.add`) runs before the drive-connectivity check, so
the claim that no set is mutated while the destination root is absent is
false. -/
theorem handle_file_drive_disconnected_counterexample :
    (handleFile (initState [".jpg"]) "copy"
        { path := "/w/notes.txt", isDirectory := false,
          driveConnected := false, stratResult := none,
          execOk := true }).1.unsupportedFiles = ["/w/notes.txt"] := by
  decide

/-- Claim C7 (amended): when the destination root does not exist at the
time of the call, `handle_file` returns without mutating `processed_files`
or `unsupported_files` — provided the event is a directory event, or the
path is already cached as unsupported, or the path passes the extension
allow-list.  (A path failing the allow-list is inserted into
`unsupported_files` before the drive check, whether or not the drive is
connected.) -/
theorem handle_file_drive_disconnected_frame (st : WatcherState)
    (op : String) (i : HFInput) (hdrive : i.driveConnected = false)
    (hpass : i.isDirectory = true ∨ i.path ∈ st.unsupportedFiles ∨
      st.fileTypes = [] ∨ matchesFileTypes st.fileTypes i.path) :
    handleFile st op i = (st, []) := by
  rcases hpass with hdir | hmem | hft | hmatch
  · exact hf_dir st op i hdir
  · cases hdir : i.isDirectory with
    | true => exact hf_dir st op i hdir
    | false => exact hf_unsup_mem st op i hdir hmem
  · cases hdir : i.isDirectory with
    | true => exact hf_dir st op i hdir
    | false =>
        by_cases hmem : i.path ∈ st.unsupportedFiles
        · exact hf_unsup_mem st op i hdir hmem
        · exact hf_drive st op i hdir hmem (Or.inl hft) hdrive
  · cases hdir : i.isDirectory with
    | true => exact hf_dir st op i hdir
    | false =>
        by_cases hmem : i.path ∈ st.unsupportedFiles
        · exact hf_unsup_mem st op i hdir hmem
        · exact hf_drive st op i hdir hmem (Or.inr hmatch) hdrive

/-- Claim C7 witness: a concrete allow-listed file while the drive is
disconnected is left untouched. -/
theorem handle_file_drive_disconnected_frame_witness :
    handleFile (initState [".jpg"]) "copy"
        { path := "/w/a.jpg", isDirectory := false, driveConnected := false,
          stratResult := none, execOk := true } =
      (initState [".jpg"], []) :=
  handle_file_drive_disconnected_frame (initState [".jpg"]) "copy"
    { path := "/w/a.jpg", isDirectory := false, driveConnected := false,
      stratResult := none, execOk := true }
    rfl (Or.inr (Or.inr (Or.inr (by decide))))

/-- Claim C8 counterexample: after `stop_watching`, the periodic-scan
loop's continuation condition is still `true` — the loop is `while True:`
and `stop_watching` only stops the observer — so a new scan iteration
does begin at the loop's next wake, contradicting the claim that the
loop is signaled to exit. -/
theorem stop_watching_scan_loop_counterexample :
    scanLoopRunsAgain (stopWatching { observerActive := true }) = true := by
  decide

/-- Claim C8 (amended): `stop_watching` stops the live-event source, so
no further callbacks are delivered, but it sends no signal to the
periodic-scan loop: the loop's `while True:` condition still holds after
the stop, and a new scan iteration begins at every subsequent wake until
the process exits (the scan thread is a daemon thread). -/
theorem stop_watching_behaviour (w : WatcherRuntime) :
    observerDelivers (stopWatching w) = false ∧
    scanLoopRunsAgain (stopWatching w) = true :=
  ⟨rfl, rfl⟩

/-- Claim C9: for every image file with basename `IMG_01.jpg` whose EXIF
DateTimeOriginal (tag 36867) is `2024:03:15 10:00:00`, the photo
strategy with destination root `/dest` produces
`/dest/2024/03 Mar 2024/2024 03 15 IMG_01.jpg`: directory
`dest_root/year/{month_num} {month_name} {year}/` and filename
`{year} {month_num} {day} {original_filename}`. -/
theorem photo_exif_march_2024_path (src : String)
    (h : basename src = "IMG_01.jpg") :
    photoBuildDestinationPath
      (extractExifData (fun _ => some [(36867, "2024:03:15 10:00:00")]))
      src "/dest" =
      some "/dest/2024/03 Mar 2024/2024 03 15 IMG_01.jpg" := by
  have hext : fileExtension src = ".jpg" := by
    unfold fileExtension
    rw [h]
    decide
  simp only [photoBuildDestinationPath, extractExifData, hext, h]
  decide

/-- Claim C9 witness: the path construction at a concrete source path. -/
theorem photo_exif_march_2024_path_witness :
    basename "/camera/IMG_01.jpg" = "IMG_01.jpg" ∧
    photoBuildDestinationPath
      (extractExifData (fun _ => some [(36867, "2024:03:15 10:00:00")]))
      "/camera/IMG_01.jpg" "/dest" =
      some "/dest/2024/03 Mar 2024/2024 03 15 IMG_01.jpg" :=
  ⟨by decide, photo_exif_march_2024_path "/camera/IMG_01.jpg" (by decide)⟩

/-- Claim C10: the Watcher creates no lock, so the shared-set checks and
mutations of two concurrent `handle_file` calls are NOT mutually
exclusive.  Under the interleaving in which both threads pass the
`processed_files` membership test before either runs the executor, the
Operation Executor is invoked TWICE for the same newly discovered path;
the fully serialized schedule of the same two calls invokes it exactly
once, confirming the double execution is caused by the missing mutual
exclusion. -/
theorem race_double_execution :
    countExecCalls "a.jpg"
      (runSchedule [] "copy"
        [true, true, true, true, true, true, true,
         false, false, false, false, false, false, false, false, false,
         true, true]
        ⟨[], []⟩
        (newThread ⟨"a.jpg", false, true, some "/d/a.jpg", true⟩)
        (newThread ⟨"a.jpg", false, true, some "/d/a.jpg", true⟩)).2.2.2 = 2 ∧
    countExecCalls "a.jpg"
      (runSchedule [] "copy"
        [true, true, true, true, true, true, true, true, true,
         false, false, false, false, false, false, false, false, false]
        ⟨[], []⟩
        (newThread ⟨"a.jpg", false, true, some "/d/a.jpg", true⟩)
        (newThread ⟨"a.jpg", false, true, some "/d/a.jpg", true⟩)).2.2.2 = 1 := by
  decide

end FileBackup
